import Mathlib

/-!  Shallow embedding of the smart-search core of the repository
(class SmartCacheFirstAPI in src/unnamed/part_000; src/api-server.js repeats
the same logic).  Pure data and control flow are transcribed directly from
the JavaScript; network and AI calls (fetchFromStreetEasy, the cache lookup,
audit records) are oracles supplied as explicit arguments or environment
fields.  JavaScript numbers are embedded as Int/Nat: the float budget
multipliers 1.2, 1.5, 2.0, 3.0, 5.0, 10.0 are embedded exactly as tenths,
and Math.round x is floor (x + 1/2), which agrees with the float computation
on the inputs the claims use.  Timestamps, log output, locale number
formatting and the exact text of human-readable messages are not modelled
(messages are carried but abridged).  JS Array.prototype.sort is stable
(ES2019), so sorts are embedded as stable insertion sort.  -/

namespace ApiRepo

/-- A listing record as it flows through the pipeline: the fields of the
JavaScript listing objects that the core logic reads or writes.  JS
`undefined` fields are `none` or the stated defaults. -/
structure Listing where
  listing_id : String := ""
  discount_percent : Option Int := none
  monthly_rent : Option Int := none
  price : Option Int := none
  source : String := ""
  isCached : Bool := false
  isSimilarFallback : Bool := false
  fallbackStrategy : String := ""
  budgetIncreasePercent : Option Int := none
  newBudget : Option Int := none
  bedroomFlexible : Bool := false
  actualNeighborhood : Option String := none
  neighborhoodChanged : Bool := false
  isLastResort : Bool := false
  budgetIncreased : Bool := false
  actualPrice : Option Int := none
  isCheapestAvailable : Bool := false
  deriving DecidableEq

/-- `x.discount_percent || 0` as read by the `combineResults` comparator
(a missing/undefined discount counts as 0). -/
def dp (l : Listing) : Int := l.discount_percent.getD 0

/-- `a.monthly_rent || a.price || 0`: JS `||` skips `undefined` and `0`. -/
def effPrice (l : Listing) : Int :=
  match l.monthly_rent with
  | some m => if m = 0 then l.price.getD 0 else m
  | none => l.price.getD 0

/-- The `combineResults` comparator
`(a, b) => (b.discount_percent || 0) - (a.discount_percent || 0)`:
`a` sorts no later than `b` exactly when `dp b ≤ dp a` (descending). -/
def discountDesc (a b : Listing) : Prop := dp b ≤ dp a

instance : DecidableRel discountDesc :=
  fun a b => inferInstanceAs (Decidable (dp b ≤ dp a))

instance : IsTotal Listing discountDesc := ⟨fun a b => le_total (dp b) (dp a)⟩

instance : IsTrans Listing discountDesc := ⟨fun _ _ _ hab hbc => le_trans hbc hab⟩

/-- Ascending-price comparator used by every relaxation strategy:
`(a, b) => (a.monthly_rent || a.price || 0) - (b.monthly_rent || b.price || 0)`. -/
def priceAsc (a b : Listing) : Prop := effPrice a ≤ effPrice b

instance : DecidableRel priceAsc :=
  fun a b => inferInstanceAs (Decidable (effPrice a ≤ effPrice b))

instance : IsTotal Listing priceAsc := ⟨fun a b => le_total (effPrice a) (effPrice b)⟩

instance : IsTrans Listing priceAsc := ⟨fun _ _ _ hab hbc => le_trans hab hbc⟩

/-- `{...r, source: "fresh", isCached: false}` applied to appended fresh rows. -/
def markFresh (r : Listing) : Listing := { r with source := "fresh", isCached := false }

/-- The deduplicated concatenation built by `combineResults` before sorting:
`combined = [...cacheResults]`, then each fresh result whose `listing_id` is
not in the `Set` of cache ids is appended; the set is built once from the
cache and never extended while iterating. -/
def combinedList (cacheResults newResults : List Listing) : List Listing :=
  cacheResults ++
    (newResults.filter
      (fun r => decide (r.listing_id ∉ cacheResults.map Listing.listing_id))).map markFresh

/-- `combineResults(cacheResults, newResults, maxResults)`: dedupe fresh rows
against the cache ids, stable-sort descending by `discount_percent || 0`,
truncate to `maxResults`. -/
def combineResults (cacheResults newResults : List Listing) (maxResults : Nat) : List Listing :=
  ((combinedList cacheResults newResults).insertionSort discountDesc).take maxResults

/-- Result of one `fetchFromStreetEasy(params, threshold, ...)` call: the
listings that qualified at `threshold` plus call statistics.  In the source
this is a provider HTTP call followed by batched AI valuation; here it is an
oracle. -/
structure FetchResult where
  properties : List Listing := []
  apiCalls : Nat := 1
  totalFetched : Nat := 0
  totalAnalyzed : Nat := 0
  claudeApiCalls : Nat := 0
  deriving DecidableEq

/-- Return value of `fetchWithThresholdFallback`. -/
structure TFResult where
  properties : List Listing
  thresholdUsed : Int
  thresholdLowered : Bool
  apiCalls : Nat
  deriving DecidableEq

/-- `this.thresholdSteps = [5, 4, 3, 2, 1]`. -/
def thresholdSteps : List Int := [5, 4, 3, 2, 1]

/-- The candidate list built at the top of `fetchWithThresholdFallback`:
the original threshold, then for each step the lowered value
`threshold - step` kept only when it is at least 1. -/
def thresholdCandidates (t : Int) : List Int :=
  t :: thresholdSteps.filterMap (fun step => if 1 ≤ t - step then some (t - step) else none)

/-- The `for (const threshold of thresholds)` loop of
`fetchWithThresholdFallback`, with the provider+valuation pass
(`fetchFromStreetEasy`) as an oracle on the candidate threshold.  Returns
the thresholds actually tried in order, the accumulated provider-call
count, and the first non-empty qualifying set with its threshold. -/
def tfLoop (fetch : Int → FetchResult) : List Int → List Int × Nat × Option (Int × List Listing)
  | [] => ([], 0, none)
  | c :: rest =>
    let r := fetch c
    if 0 < r.properties.length then
      ([c], r.apiCalls, some (c, r.properties))
    else
      let out := tfLoop fetch rest
      (c :: out.1, r.apiCalls + out.2.1, out.2.2)

/-- `fetchWithThresholdFallback(params, ...)` with the per-threshold
provider+valuation pass abstracted as `fetch`: try candidates in order,
stop at the first non-empty qualifying set; on success record the used
threshold and whether it is lower than the original; on exhaustion return
an empty result at the original threshold. -/
def fetchWithThresholdFallback (fetch : Int → FetchResult) (t : Int) : TFResult :=
  let out := tfLoop fetch (thresholdCandidates t)
  match out.2.2 with
  | some (c, props) =>
    { properties := props, thresholdUsed := c, thresholdLowered := decide (c < t),
      apiCalls := out.2.1 }
  | none =>
    { properties := [], thresholdUsed := t, thresholdLowered := false, apiCalls := out.2.1 }

/-- A provider pass that never finds anything (used as a concrete oracle). -/
def fetchNone : Int → FetchResult := fun _ => {}

/-- The search parameters (`params` / `originalParams`) read by the core
logic.  JS `undefined` optional numeric fields are `none`. -/
structure Params where
  neighborhood : String := ""
  propertyType : String := "rental"
  bedrooms : Option Int := none
  bathrooms : Option Int := none
  minPrice : Option Int := none
  maxPrice : Option Int := none
  maxResults : Nat := 1
  undervaluationThreshold : Int := 15
  deriving DecidableEq

/-- JS truthiness of an optional numeric field: `undefined` and `0` are
falsy (the source guards like `if (originalParams.maxPrice)` use this). -/
def truthy : Option Int → Bool
  | none => false
  | some v => v != 0

/-- `Math.round(x / 10)` for an exact-tenths value: floor of `x/10 + 1/2`.
The float multipliers 1.2, 1.5, 2.0, 3.0, 5.0, 10.0 (and 1.0) are carried
as their exact tenths, so `Math.round(maxPrice * mult)` becomes
`roundTenths (maxPrice * multTenths)`; this agrees with the source's float
computation on the inputs the claims exercise. -/
def roundTenths (x : Int) : Int := (x + 5).fdiv 10

/-- `const budgetMultipliers = [1.2, 1.5, 2.0, 3.0, 5.0, 10.0]`, in tenths. -/
def budgetMultipliersTenths : List Int := [12, 15, 20, 30, 50, 100]

/-- Return value of `fetchSimilarListings` (per-strategy extra fields are
optional; the defaulted record is the final all-strategies-failed return).
Human-readable `fallbackMessage` text is abridged (no locale formatting,
no apostrophes); the per-listing `originalSearchParams` snapshot is not
carried. -/
structure SimilarResult where
  properties : List Listing := []
  fallbackMessage : Option String := none
  fallbackStrategy : String := "none"
  budgetIncreased : Bool := false
  originalBudget : Option Int := none
  finalBudget : Option Int := none
  budgetIncreasePercent : Option Int := none
  neighborhoodChanged : Bool := false
  actualNeighborhood : Option String := none
  isLastResort : Bool := false
  apiCalls : Nat := 0
  totalFetched : Nat := 0
  totalAnalyzed : Nat := 0
  claudeApiCalls : Nat := 0
  deriving DecidableEq

/-- `results.properties.sort(ascending by effective price).slice(0,
originalParams.maxResults || 1)`: stable ascending sort, keep the cheapest
`maxResults` entries (1 when `maxResults` is 0/undefined). -/
def cheapest (maxResults : Nat) (props : List Listing) : List Listing :=
  (props.insertionSort priceAsc).take (if maxResults = 0 then 1 else maxResults)

/-- The budget-expansion multiplier loop of `fetchSimilarListings`: for each
multiplier in order, one provider+valuation pass with `maxPrice` scaled and
rounded, `minPrice` cleared and qualification threshold 1; first non-empty
result wins. -/
def budgetLoop (fetch : Params → Int → FetchResult) (p : Params) :
    List Int → Option (Int × FetchResult)
  | [] => none
  | m :: ms =>
    let r := fetch { p with
      maxPrice := some (roundTenths (p.maxPrice.getD 0 * m)),
      minPrice := none, undervaluationThreshold := 1 } 1
    if 0 < r.properties.length then some (m, r) else budgetLoop fetch p ms

/-- Budget-expansion strategy (runs only when `originalParams.maxPrice` is
truthy).  `budgetIncreasePercent = Math.round((mult - 1) * 100)` is
`(multTenths - 10) * 10` exactly. -/
def budgetStrategy (fetch : Params → Int → FetchResult) (p : Params) : Option SimilarResult :=
  if truthy p.maxPrice then
    match budgetLoop fetch p budgetMultipliersTenths with
    | some (m, r) =>
      some { properties := (cheapest p.maxResults r.properties).map (fun l =>
               { l with isSimilarFallback := true,
                        fallbackStrategy := "progressive_budget_increase",
                        budgetIncreased := true,
                        newBudget := some (roundTenths (p.maxPrice.getD 0 * m)),
                        actualPrice := some (effPrice l),
                        budgetIncreasePercent := some ((m - 10) * 10),
                        isCheapestAvailable := true }),
             fallbackMessage := some ("There were no matches in " ++ p.neighborhood ++
               " under the original budget, but here is the cheapest we found there:"),
             fallbackStrategy := "progressive_budget_increase",
             budgetIncreased := true,
             originalBudget := p.maxPrice,
             finalBudget := some (roundTenths (p.maxPrice.getD 0 * m)),
             budgetIncreasePercent := some ((m - 10) * 10),
             apiCalls := r.apiCalls, totalFetched := r.totalFetched,
             totalAnalyzed := r.totalAnalyzed, claudeApiCalls := r.claudeApiCalls }
    | none => none
  else none

/-- Bedroom-relaxation strategy (runs only when `originalParams.bedrooms`
is truthy): one pass with `bedrooms` cleared and `maxPrice` doubled when
originally truthy.  The derived params say `undervaluationThreshold: 1`,
but the threshold ARGUMENT passed to the provider+valuation pass — the one
that decides qualification — is `originalParams.undervaluationThreshold`,
exactly as in the source. -/
def bedroomStrategy (fetch : Params → Int → FetchResult) (p : Params) : Option SimilarResult :=
  if truthy p.bedrooms then
    let r := fetch { p with
                     bedrooms := none,
                     maxPrice := if truthy p.maxPrice then some (p.maxPrice.getD 0 * 2) else none,
                     undervaluationThreshold := 1 }
                   p.undervaluationThreshold
    if 0 < r.properties.length then
      some { properties := (cheapest p.maxResults r.properties).map (fun l =>
               { l with isSimilarFallback := true,
                        fallbackStrategy := "bedroom_flexibility",
                        bedroomFlexible := true,
                        isCheapestAvailable := true }),
             fallbackMessage := some ("There were no matching-bedroom listings in " ++
               p.neighborhood ++ ", but here is the cheapest we found there:"),
             fallbackStrategy := "bedroom_flexibility",
             apiCalls := r.apiCalls, totalFetched := r.totalFetched,
             totalAnalyzed := r.totalAnalyzed, claudeApiCalls := r.claudeApiCalls }
    else none
  else none

/-- The static neighborhood-adjacency table of `getSimilarNeighborhoods`. -/
def similarTable : List (String × List String) :=
  [("soho", ["tribeca", "nolita", "west-village", "east-village", "lower-east-side"]),
   ("tribeca", ["soho", "financial-district", "west-village", "battery-park-city"]),
   ("west-village", ["soho", "tribeca", "east-village", "chelsea", "meatpacking-district"]),
   ("east-village", ["west-village", "lower-east-side", "nolita", "gramercy"]),
   ("lower-east-side", ["east-village", "chinatown", "nolita", "two-bridges"]),
   ("nolita", ["soho", "east-village", "lower-east-side", "little-italy"]),
   ("chelsea", ["west-village", "gramercy", "flatiron", "meatpacking-district"]),
   ("gramercy", ["chelsea", "east-village", "murray-hill", "flatiron"]),
   ("upper-west-side", ["upper-east-side", "morningside-heights", "harlem", "lincoln-square"]),
   ("upper-east-side", ["upper-west-side", "yorkville", "midtown-east"]),
   ("harlem", ["morningside-heights", "upper-west-side", "washington-heights", "east-harlem"]),
   ("williamsburg", ["greenpoint", "bushwick", "dumbo", "bedstuy"]),
   ("bushwick", ["williamsburg", "bedstuy", "ridgewood", "east-williamsburg"]),
   ("park-slope", ["prospect-heights", "gowanus", "carroll-gardens", "windsor-terrace"]),
   ("dumbo", ["brooklyn-heights", "downtown-brooklyn", "williamsburg", "vinegar-hill"]),
   ("astoria", ["long-island-city", "sunnyside", "woodside", "jackson-heights"]),
   ("long-island-city", ["astoria", "sunnyside", "hunters-point"])]

/-- JS `toLowerCase()` on an area identifier, modelled character-wise
(extensionally `String.toLower`, written over the character list so it
evaluates by plain reduction). -/
def jsToLower (s : String) : String := ⟨s.data.map Char.toLower⟩

/-- `getSimilarNeighborhoods(originalNeighborhood)`: look the lowercased
area up in the static table; on a miss return the fixed default list. -/
def getSimilarNeighborhoods (originalNeighborhood : String) : List String :=
  (similarTable.lookup (jsToLower originalNeighborhood)).getD
    ["east-village", "lower-east-side", "chinatown"]

/-- `const ms = originalParams.maxPrice ? [1.0, 1.2, 1.5, 2.0] : [1.0]`,
in tenths. -/
def neighborhoodMultipliers (p : Params) : List Int :=
  if truthy p.maxPrice then [10, 12, 15, 20] else [10]

/-- Inner multiplier loop of the neighborhood-substitution strategy for one
candidate area `n`; like the bedroom strategy, the qualification threshold
argument is `originalParams.undervaluationThreshold`. -/
def neighborhoodInner (fetch : Params → Int → FetchResult) (p : Params) (n : String) :
    List Int → Option SimilarResult
  | [] => none
  | m :: ms =>
    let r := fetch { p with
                     neighborhood := n,
                     maxPrice := if truthy p.maxPrice
                       then some (roundTenths (p.maxPrice.getD 0 * m)) else none,
                     undervaluationThreshold := 1 }
                   p.undervaluationThreshold
    if 0 < r.properties.length then
      some { properties := (cheapest p.maxResults r.properties).map (fun l =>
               { l with isSimilarFallback := true,
                        fallbackStrategy := "similar_neighborhood",
                        neighborhoodChanged := true,
                        actualNeighborhood := some n,
                        isCheapestAvailable := true }),
             fallbackMessage := some ("There were no matches in " ++ p.neighborhood ++
               ", but here is the cheapest we found in nearby " ++ n ++ ":"),
             fallbackStrategy := "similar_neighborhood",
             neighborhoodChanged := true,
             actualNeighborhood := some n,
             apiCalls := r.apiCalls, totalFetched := r.totalFetched,
             totalAnalyzed := r.totalAnalyzed, claudeApiCalls := r.claudeApiCalls }
    else neighborhoodInner fetch p n ms

/-- Outer loop of the neighborhood-substitution strategy over the candidate
areas from `getSimilarNeighborhoods`. -/
def neighborhoodOuter (fetch : Params → Int → FetchResult) (p : Params) :
    List String → Option SimilarResult
  | [] => none
  | n :: ns =>
    match neighborhoodInner fetch p n (neighborhoodMultipliers p) with
    | some res => some res
    | none => neighborhoodOuter fetch p ns

/-- `const manhattanNeighborhoods = [...]` of the last-resort strategy. -/
def manhattanNeighborhoods : List String :=
  ["east-village", "lower-east-side", "chinatown", "financial-district"]

/-- Citywide last-resort loop: bedrooms and both price bounds cleared; on
the first non-empty result keep only the single cheapest listing
(`slice(0, 1)` regardless of `maxResults`); the qualification threshold
argument is again `originalParams.undervaluationThreshold`. -/
def lastResortLoop (fetch : Params → Int → FetchResult) (p : Params) :
    List String → Option SimilarResult
  | [] => none
  | n :: ns =>
    let r := fetch { p with
                     neighborhood := n, bedrooms := none, maxPrice := none,
                     minPrice := none, undervaluationThreshold := 1 }
                   p.undervaluationThreshold
    if 0 < r.properties.length then
      some { properties := ((r.properties.insertionSort priceAsc).take 1).map (fun l =>
               { l with isSimilarFallback := true,
                        fallbackStrategy := "last_resort",
                        isLastResort := true,
                        isCheapestAvailable := true }),
             fallbackMessage := some ("We could not find what you were looking for in " ++
               p.neighborhood ++ ", but here is the cheapest in Manhattan:"),
             fallbackStrategy := "last_resort",
             isLastResort := true,
             apiCalls := r.apiCalls, totalFetched := r.totalFetched,
             totalAnalyzed := r.totalAnalyzed, claudeApiCalls := r.claudeApiCalls }
    else lastResortLoop fetch p ns

/-- `fetchSimilarListings(originalParams, ...)`: the four relaxation
strategies tried in fixed priority order, each short-circuiting on its
first non-empty result; the defaulted `SimilarResult` is the final
everything-failed return (`fallbackMessage: null`, strategy `none`,
all statistics zero). -/
def fetchSimilarListings (fetch : Params → Int → FetchResult) (p : Params) : SimilarResult :=
  match budgetStrategy fetch p with
  | some res => res
  | none =>
    match bedroomStrategy fetch p with
    | some res => res
    | none =>
      match neighborhoodOuter fetch p (getSimilarNeighborhoods p.neighborhood) with
      | some res => res
      | none =>
        match lastResortLoop fetch p manhattanNeighborhoods with
        | some res => res
        | none => {}

/-- The mutable job record of `startSmartSearch` (the fields the engine
reads or writes; wall-clock timestamps are not modelled). -/
structure Job where
  status : String := "processing"
  progress : Nat := 0
  message : String := ""
  originalThreshold : Int := 0
  cacheHits : Nat := 0
  thresholdUsed : Option Int := none
  thresholdLowered : Bool := false
  error : Option String := none
  deriving DecidableEq

/-- The terminal `jobResults` record stored for a job (delivery-formatting
fields and timestamps are not modelled). -/
structure JobResultR where
  source : String
  properties : List Listing
  totalFound : Nat
  cacheHits : Nat
  newlyScraped : Nat
  thresholdUsed : Int
  thresholdLowered : Bool
  usedSimilarFallback : Bool
  deriving DecidableEq

/-- The effectful collaborators one `startSmartSearch` run awaits, each
either a returned value or a thrown exception (`Except.error` carries the
JS error message).  A single run awaits `createFetchRecord` once,
`smartCacheSearch` once, `fetchWithThresholdFallback` at most once,
`fetchSimilarListings` at most once, `updateFetchRecord` at most once
inside the try block (`updateRecord`) and at most once inside the catch
block (`updateRecordFail`), so one outcome per collaborator per run is
fully general. -/
structure Env where
  createRecord : Except String Unit
  cacheSearch : Except String (List Listing)
  thresholdFetch : Except String TFResult
  similarFetch : Except String SimilarResult
  updateRecord : Except String Unit
  updateRecordFail : Except String Unit

/-- The job as first registered in `activeJobs`. -/
def jobInit (p : Params) : Job :=
  { status := "processing", progress := 0,
    message := "Starting smart cache-first search...",
    originalThreshold := p.undervaluationThreshold, cacheHits := 0,
    thresholdLowered := false }

/-- The tail of the pipeline from the progress-90 combine step: combine
cache and fresh results, record the threshold actually used, mark the job
completed at progress 100, update the audit record and build the stored
`JobResultR` (source `similar_listings` when the relaxation path supplied
the fresh set, else `cache_and_fresh`).  Returns `Sum.inl` on success and
`Sum.inr (message, job-at-throw, progress-trace)` when the awaited audit
update throws.  The `List Nat` is the trace of values assigned to
`job.progress`, in order. -/
def finishCombine (env : Env) (p : Params) (cacheResults : List Listing)
    (se : TFResult) (usedSimilar : Bool) (j : Job) (tr : List Nat) :
    (Job × JobResultR × List Nat) ⊕ (String × Job × List Nat) :=
  let j5 := { j with progress := 90, message := "Combining cached and new results..." }
  let combined := combineResults cacheResults se.properties p.maxResults
  let j6 := { j5 with
    thresholdUsed := some se.thresholdUsed, thresholdLowered := se.thresholdLowered,
    status := "completed", progress := 100,
    message := "Found total properties (cached plus new)" }
  match env.updateRecord with
  | .error m => .inr (m, j6, tr ++ [90, 100])
  | .ok _ =>
    .inl (j6,
      { source := if usedSimilar then "similar_listings" else "cache_and_fresh",
        properties := combined, totalFound := combined.length,
        cacheHits := cacheResults.length, newlyScraped := se.properties.length,
        thresholdUsed := se.thresholdUsed, thresholdLowered := se.thresholdLowered,
        usedSimilarFallback := usedSimilar },
      tr ++ [90, 100])

/-- The try block of `startSmartSearch(jobId, params)`, transcribed with
each `await` site reading its `Env` outcome: register the job at progress
0; audit-record creation; progress 20 and the cache query; the
cache-sufficiency early return (`cache_only`); progress 40 and the
threshold-fallback search; when both it and the cache are empty, progress
70 and the relaxation search, finishing as `no_results` when that too is
empty, otherwise substituting its listings as the fresh set; finally the
combine step.  `Sum.inl` carries the final job, the stored result and the
progress trace; `Sum.inr` carries the thrown message plus the job and
trace at the moment of the throw. -/
def smartSearchTry (env : Env) (p : Params) :
    (Job × JobResultR × List Nat) ⊕ (String × Job × List Nat) :=
  let j0 := jobInit p
  match env.createRecord with
  | .error m => .inr (m, j0, [0])
  | .ok _ =>
    let j1 := { j0 with progress := 20, message := "Checking cache for existing matches..." }
    match env.cacheSearch with
    | .error m => .inr (m, j1, [0, 20])
    | .ok cacheResults =>
      let j2 := { j1 with cacheHits := cacheResults.length }
      if cacheResults.length ≥ p.maxResults then
        let j3 := { j2 with
          status := "completed", progress := 100,
          message := "Found properties from cache (instant results!)" }
        match env.updateRecord with
        | .error m => .inr (m, j3, [0, 20, 100])
        | .ok _ =>
          .inl (j3,
            { source := "cache_only", properties := cacheResults,
              totalFound := cacheResults.length, cacheHits := cacheResults.length,
              newlyScraped := 0, thresholdUsed := p.undervaluationThreshold,
              thresholdLowered := false, usedSimilarFallback := false },
            [0, 20, 100])
      else
        let j3 := { j2 with
          progress := 40, message := "Fetching more from StreetEasy..." }
        match env.thresholdFetch with
        | .error m => .inr (m, j3, [0, 20, 40])
        | .ok se =>
          if se.properties.length = 0 ∧ cacheResults.length = 0 then
            let j4 := { j3 with
              progress := 70,
              message := "No direct matches found, searching for similar listings..." }
            match env.similarFetch with
            | .error m => .inr (m, j4, [0, 20, 40, 70])
            | .ok sim =>
              if sim.properties.length = 0 then
                let j5 := { j4 with
                  status := "completed", progress := 100,
                  message := "No properties found matching criteria or similar alternatives" }
                match env.updateRecord with
                | .error m => .inr (m, j5, [0, 20, 40, 70, 100])
                | .ok _ =>
                  .inl (j5,
                    { source := "no_results", properties := [], totalFound := 0,
                      cacheHits := cacheResults.length, newlyScraped := 0,
                      thresholdUsed := p.undervaluationThreshold,
                      thresholdLowered := false, usedSimilarFallback := false },
                    [0, 20, 40, 70, 100])
              else
                finishCombine env p cacheResults
                  { se with properties := sim.properties } true j4 [0, 20, 40, 70]
          else
            finishCombine env p cacheResults se false j3 [0, 20, 40]

/-- `startSmartSearch` including its catch block: on a throw the job is
set to `status = "failed"` with the error message attached (progress and
trace untouched), no result record is stored, and the catch's own audit
update is awaited inside a `try {} catch { /* ignore */ }` so its outcome
changes nothing.  Returns (final job, stored result if any, progress
trace). -/
def startSmartSearch (env : Env) (p : Params) : Job × Option JobResultR × List Nat :=
  match smartSearchTry env p with
  | .inl (j, r, tr) => (j, some r, tr)
  | .inr (m, j, tr) =>
    let jf := { j with status := "failed", error := some m }
    match env.updateRecordFail with
    | .ok _ => (jf, none, tr)
    | .error _ => (jf, none, tr)

/-- A provider+valuation oracle whose only candidate listing carries a 5
percent discount, so the pass keeps it exactly when the qualification
threshold argument is at most 5 (the valuation filter is
`discount_percent >= threshold`). -/
def fetchC2 : Params → Int → FetchResult := fun _ th =>
  { properties :=
      if th ≤ 5 then [{ listing_id := "b5", discount_percent := some 5, price := some 1000 }]
      else [] }

/-- The original search of the C2 scenario: bedrooms set, no maxPrice (so
budget expansion does not apply), original threshold 25. -/
def pC2 : Params :=
  { neighborhood := "soho", bedrooms := some 2, maxPrice := none, maxResults := 1,
    undervaluationThreshold := 25 }

/-- The progress-trace component of a pipeline outcome. -/
def outTrace : (Job × JobResultR × List Nat) ⊕ (String × Job × List Nat) → List Nat
  | .inl (_, _, tr) => tr
  | .inr (_, _, tr) => tr

/-- A concrete environment whose cache query throws. -/
def envC3 : Env :=
  { createRecord := .ok (), cacheSearch := .error "boom",
    thresholdFetch := .ok ⟨[], 20, false, 0⟩,
    similarFetch := .ok {}, updateRecord := .ok (), updateRecordFail := .ok () }

/-- Concrete params for the C3 and C7 witnesses. -/
def pC3 : Params := { neighborhood := "soho", maxResults := 2, undervaluationThreshold := 20 }

/-- The job state at the moment `envC3`'s cache query throws. -/
def jC3 : Job :=
  { jobInit pC3 with progress := 20, message := "Checking cache for existing matches..." }

/-- The empty threshold-fallback outcome used by the C7 witness. -/
def tfC7 : TFResult :=
  { properties := [], thresholdUsed := 20, thresholdLowered := false, apiCalls := 6 }

/-- A concrete environment in which every collaborator succeeds but finds
nothing. -/
def envC7 : Env :=
  { createRecord := .ok (), cacheSearch := .ok [],
    thresholdFetch := .ok tfC7,
    similarFetch := .ok {}, updateRecord := .ok (), updateRecordFail := .ok () }

/-- A concrete provider oracle for the C6 scenario: qualifying listings
appear exactly when the searched `maxPrice` reaches 3000. -/
def fetchC6 : Params → Int → FetchResult := fun q _ =>
  if 3000 ≤ q.maxPrice.getD 0 then
    { properties := [{ listing_id := "c6", price := some 3000 }] }
  else {}

/-- The original search of the C6 scenario. -/
def pC6 : Params :=
  { neighborhood := "soho", maxPrice := some 2000, maxResults := 1,
    undervaluationThreshold := 20 }

section SortLemmas

variable {α : Type} (r : α → α → Prop) [DecidableRel r]

theorem filter_orderedInsert (p : α → Bool)
    (hp : ∀ a b, p a = true → p b = true → r a b) (x : α) :
    ∀ l : List α, (l.orderedInsert r x).filter p = (x :: l).filter p := by
  intro l
  induction l with
  | nil => rfl
  | cons y l ih =>
    by_cases hxy : r x y
    · simp [List.orderedInsert, hxy]
    · have hnp : ¬(p x = true ∧ p y = true) := fun hh => hxy (hp x y hh.1 hh.2)
      by_cases hpy : p y = true
      · have hpx : ¬ p x = true := fun hx => hnp ⟨hx, hpy⟩
        simp [List.orderedInsert, hxy, List.filter_cons, hpy, hpx] at ih ⊢
        exact ih
      · simp [List.orderedInsert, hxy, List.filter_cons, hpy] at ih ⊢
        exact ih

theorem filter_insertionSort (p : α → Bool)
    (hp : ∀ a b, p a = true → p b = true → r a b) (l : List α) :
    (l.insertionSort r).filter p = l.filter p := by
  induction l with
  | nil => rfl
  | cons x l ih =>
    rw [List.insertionSort, filter_orderedInsert r p hp, List.filter_cons, List.filter_cons, ih]

theorem filter_take_isPrefix (p : α → Bool) (l : List α) (n : Nat) :
    (l.take n).filter p <+: l.filter p :=
  ⟨(l.drop n).filter p, by rw [← List.filter_append, List.take_append_drop]⟩

end SortLemmas

theorem markFresh_listing_id (r : Listing) : (markFresh r).listing_id = r.listing_id := rfl

theorem tfLoop_calls (fetch : Int → FetchResult) :
    ∀ l : List Int,
      (tfLoop fetch l).1 =
        l.takeWhile (fun c => (fetch c).properties.isEmpty) ++
          (l.drop (l.takeWhile (fun c => (fetch c).properties.isEmpty)).length).take 1 := by
  intro l
  induction l with
  | nil => rfl
  | cons c rest ih =>
    by_cases hc : (fetch c).properties.isEmpty = true
    · have hnil : (fetch c).properties = [] := List.isEmpty_iff.1 hc
      have hlen : ¬ 0 < (fetch c).properties.length := by simp [hnil]
      simp [tfLoop, hlen, List.takeWhile_cons, hc, ih]
    · have hne : (fetch c).properties ≠ [] := by
        intro h
        exact hc (List.isEmpty_iff.2 h)
      have hlen : 0 < (fetch c).properties.length := List.length_pos.2 hne
      simp [tfLoop, hlen, List.takeWhile_cons, hc]

theorem tfLoop_success (fetch : Int → FetchResult) :
    ∀ l : List Int, ∀ c props, (tfLoop fetch l).2.2 = some (c, props) →
      c ∈ l ∧ (fetch c).properties = props ∧ props ≠ [] := by
  intro l
  induction l with
  | nil => intro c props h; exact absurd h (by simp [tfLoop])
  | cons x rest ih =>
    intro c props h
    by_cases hlen : 0 < (fetch x).properties.length
    · have hx : tfLoop fetch (x :: rest) = ([x], (fetch x).apiCalls,
          some (x, (fetch x).properties)) := by simp [tfLoop, hlen]
      rw [hx] at h
      simp only [Option.some.injEq, Prod.mk.injEq] at h
      obtain ⟨rfl, rfl⟩ := h
      refine ⟨List.mem_cons_self _ _, rfl, ?_⟩
      exact List.length_pos.1 hlen
    · have hx : (tfLoop fetch (x :: rest)).2.2 = (tfLoop fetch rest).2.2 := by
        simp [tfLoop, hlen]
      rw [hx] at h
      obtain ⟨hmem, hrest⟩ := ih c props h
      exact ⟨List.mem_cons_of_mem _ hmem, hrest⟩

theorem tfLoop_none (fetch : Int → FetchResult) :
    ∀ l : List Int, (tfLoop fetch l).2.2 = none ↔ ∀ c ∈ l, (fetch c).properties = [] := by
  intro l
  induction l with
  | nil => simp [tfLoop]
  | cons x rest ih =>
    by_cases hlen : 0 < (fetch x).properties.length
    · have hne : (fetch x).properties ≠ [] := List.length_pos.1 hlen
      simp [tfLoop, hlen, hne]
    · have heq : (fetch x).properties = [] := by
        by_contra hne
        exact hlen (List.length_pos.2 hne)
      simp [tfLoop, hlen, heq, ih]

theorem tfLoop_first_success (fetch : Int → FetchResult) :
    ∀ l : List Int, ∀ c : Int,
      (l.drop (l.takeWhile (fun c => (fetch c).properties.isEmpty)).length).take 1 = [c] →
      (tfLoop fetch l).2.2 = some (c, (fetch c).properties) ∧ (fetch c).properties ≠ [] := by
  intro l
  induction l with
  | nil => intro c h; exact absurd h (by simp)
  | cons x rest ih =>
    intro c h
    by_cases hx : (fetch x).properties.isEmpty = true
    · have hnil : (fetch x).properties = [] := List.isEmpty_iff.1 hx
      have hlen : ¬ 0 < (fetch x).properties.length := by simp [hnil]
      rw [List.takeWhile_cons] at h
      simp only [hx, if_true, List.length_cons, List.drop_succ_cons] at h
      obtain ⟨hres, hne⟩ := ih c h
      constructor
      · simpa [tfLoop, hlen] using hres
      · exact hne
    · have hne : (fetch x).properties ≠ [] := fun hh => hx (List.isEmpty_iff.2 hh)
      have hlen : 0 < (fetch x).properties.length := List.length_pos.2 hne
      rw [List.takeWhile_cons] at h
      simp only [hx, Bool.false_eq_true, if_false, List.length_nil, List.drop_zero,
        List.take_succ_cons, List.take_zero, List.cons.injEq, and_true] at h
      subst h
      exact ⟨by simp [tfLoop, hlen], hne⟩

theorem thresholdCandidates_mem_bounds {t c : Int} (h1 : 1 ≤ t)
    (hc : c ∈ thresholdCandidates t) : 1 ≤ c ∧ c ≤ t := by
  rcases List.mem_cons.1 hc with rfl | hc'
  · exact ⟨h1, le_refl c⟩
  · obtain ⟨s, hs, hcs⟩ := List.mem_filterMap.1 hc'
    by_cases hts : 1 ≤ t - s
    · rw [if_pos hts] at hcs
      obtain rfl := Option.some.inj hcs
      have hspos : 1 ≤ s := by
        simp [thresholdSteps] at hs
        rcases hs with rfl | rfl | rfl | rfl | rfl <;> decide
      omega
    · rw [if_neg hts] at hcs
      exact absurd hcs (by simp)

theorem combinedList_map_id_nodup {cacheResults newResults : List Listing}
    (h₁ : (cacheResults.map Listing.listing_id).Nodup)
    (h₂ : (newResults.map Listing.listing_id).Nodup) :
    ((combinedList cacheResults newResults).map Listing.listing_id).Nodup := by
  rw [combinedList, List.map_append, List.map_map]
  have hcomp : Listing.listing_id ∘ markFresh = Listing.listing_id := funext fun r => rfl
  rw [hcomp]
  refine List.Nodup.append h₁ ?_ ?_
  · exact List.Nodup.sublist ((newResults.filter_sublist).map Listing.listing_id) h₂
  · intro a ha hb
    obtain ⟨r, hr, rfl⟩ := List.mem_map.1 hb
    have := (List.mem_filter.1 hr).2
    exact (of_decide_eq_true this) ha

/-- Claim C8: the list returned by `combineResults` is sorted in descending
order of `discount_percent` (a missing discount counts as 0), and entries
with equal discount keep their original relative order — i.e. for every
discount value `d`, the equal-discount subsequence of the output is a prefix
of the equal-discount subsequence of the pre-sort combined list, which lists
cache entries before fresh ones. -/
theorem combineResults_sorted_and_stable
    (cacheResults newResults : List Listing) (maxResults : Nat) :
    (combineResults cacheResults newResults maxResults).Pairwise discountDesc ∧
      ∀ d : Int,
        (combineResults cacheResults newResults maxResults).filter (fun a => dp a == d) <+:
          (combinedList cacheResults newResults).filter (fun a => dp a == d) := by
  constructor
  · exact List.Pairwise.sublist (List.take_sublist _ _)
      (List.sorted_insertionSort discountDesc _)
  · intro d
    have hp : ∀ a b : Listing, (dp a == d) = true → (dp b == d) = true → discountDesc a b := by
      intro a b ha hb
      have ha' : dp a = d := by exact_mod_cast of_decide_eq_true ha
      have hb' : dp b = d := by exact_mod_cast of_decide_eq_true hb
      unfold discountDesc
      rw [ha', hb']
    have hpre := filter_take_isPrefix (fun a => dp a == d)
      ((combinedList cacheResults newResults).insertionSort discountDesc) maxResults
    rwa [filter_insertionSort discountDesc (fun a => dp a == d) hp] at hpre

/-- Claim C1 (corrected), counterexample: with an empty cache and two fresh
rows sharing `listing_id = "a"`, `combineResults` returns both — the dedup
set is built from cache ids only, so duplicates inside the fresh list
survive. -/
theorem combineResults_duplicate_ids :
    ¬ (((combineResults []
          [{ listing_id := "a", discount_percent := some 5 },
           { listing_id := "a", discount_percent := some 3 }] 2).map
            Listing.listing_id).Nodup) := by
  decide

/-- Claim C1 (amended): for every pair of input lists and every
`maxResults`, `combineResults` returns at most `maxResults` entries — this
bound is unconditional; and whenever the cache list and the fresh list each
contain no internal duplicate listing ids, the output contains no two
entries with the same `listing_id`. -/
theorem combineResults_bound_and_nodup
    (cacheResults newResults : List Listing) (maxResults : Nat) :
    (combineResults cacheResults newResults maxResults).length ≤ maxResults ∧
      ((cacheResults.map Listing.listing_id).Nodup →
        (newResults.map Listing.listing_id).Nodup →
        ((combineResults cacheResults newResults maxResults).map
          Listing.listing_id).Nodup) := by
  constructor
  · rw [combineResults, List.length_take]
    exact min_le_left _ _
  · intro h₁ h₂
    have hcomb := combinedList_map_id_nodup h₁ h₂
    have hperm :=
      (List.perm_insertionSort discountDesc (combinedList cacheResults newResults)).map
        Listing.listing_id
    have hsorted := (hperm.nodup_iff).2 hcomb
    rw [combineResults, List.map_take]
    exact List.Nodup.sublist (List.take_sublist _ _) hsorted

/-- Claim C4 (corrected), counterexample: at original threshold 20 with a
provider pass that never finds anything, the loop tries the thresholds
20, 15, 16, 17, 18, 19 in that order — which is not a descending sequence
(15 is followed by 16). -/
theorem thresholdCandidates_not_descending :
    (tfLoop fetchNone (thresholdCandidates 20)).1 = [20, 15, 16, 17, 18, 19] ∧
      ¬ List.Chain' (fun a b : Int => b ≤ a)
          (tfLoop fetchNone (thresholdCandidates 20)).1 := by
  constructor
  · decide
  · intro hch
    rw [(by decide : (tfLoop fetchNone (thresholdCandidates 20)).1 =
        [20, 15, 16, 17, 18, 19])] at hch
    simp [List.chain'_cons, List.chain'_singleton] at hch

/-- Claim C4 (amended): `fetchWithThresholdFallback` attempts the candidate
thresholds `criteria.threshold` first, then `criteria.threshold - 5, -4, -3,
-2, -1` with only values at least 1 kept, calling the provider once per
candidate in that order: the calls made are exactly the longest prefix of
candidates whose qualifying sets are empty, followed by at most one further
call, and the loop stops at the first candidate whose qualifying set is
non-empty, returning that set at that threshold; if every candidate fails
the loop visits all of them and returns an empty set. -/
theorem fetchWithThresholdFallback_call_order (fetch : Int → FetchResult) (t : Int) :
    thresholdCandidates t =
        t :: ([t - 5, t - 4, t - 3, t - 2, t - 1].filter (fun c => decide (1 ≤ c))) ∧
      (tfLoop fetch (thresholdCandidates t)).1 =
        (thresholdCandidates t).takeWhile (fun c => (fetch c).properties.isEmpty) ++
          ((thresholdCandidates t).drop
            (((thresholdCandidates t).takeWhile
              (fun c => (fetch c).properties.isEmpty)).length)).take 1 ∧
      (∀ c ∈ (thresholdCandidates t).takeWhile (fun c => (fetch c).properties.isEmpty),
          (fetch c).properties = []) ∧
      (∀ c : Int,
          ((thresholdCandidates t).drop
            (((thresholdCandidates t).takeWhile
              (fun c => (fetch c).properties.isEmpty)).length)).take 1 = [c] →
          (fetch c).properties ≠ [] ∧
            (fetchWithThresholdFallback fetch t).properties = (fetch c).properties ∧
            (fetchWithThresholdFallback fetch t).thresholdUsed = c) ∧
      ((∀ c ∈ thresholdCandidates t, (fetch c).properties = []) →
          (fetchWithThresholdFallback fetch t).properties = [] ∧
            (tfLoop fetch (thresholdCandidates t)).1 = thresholdCandidates t) := by
  refine ⟨?_, tfLoop_calls fetch _, ?_, ?_, ?_⟩
  · by_cases h5 : 1 ≤ t - 5 <;> by_cases h4 : 1 ≤ t - 4 <;> by_cases h3 : 1 ≤ t - 3 <;>
      by_cases h2 : 1 ≤ t - 2 <;> by_cases h1 : 1 ≤ t - 1 <;>
      simp [thresholdCandidates, thresholdSteps, h5, h4, h3, h2, h1]
  · intro c hc
    have := List.mem_takeWhile_imp hc
    exact List.isEmpty_iff.1 this
  · intro c hc
    obtain ⟨hres, hne⟩ := tfLoop_first_success fetch (thresholdCandidates t) c hc
    refine ⟨hne, ?_, ?_⟩ <;> simp [fetchWithThresholdFallback, hres]
  · intro hall
    have hnone : (tfLoop fetch (thresholdCandidates t)).2.2 = none :=
      (tfLoop_none fetch _).2 hall
    constructor
    · simp [fetchWithThresholdFallback, hnone]
    · rw [tfLoop_calls fetch]
      have htw : (thresholdCandidates t).takeWhile
          (fun c => (fetch c).properties.isEmpty) = thresholdCandidates t := by
        apply List.takeWhile_eq_self_iff.2
        intro c hc
        exact List.isEmpty_iff.2 (hall c hc)
      rw [htw]
      simp

/-- Witness for C4 (amended) at a concrete oracle and threshold. -/
theorem fetchWithThresholdFallback_call_order_witness :
    thresholdCandidates 20 =
        (20 : Int) :: ([20 - 5, 20 - 4, 20 - 3, 20 - 2, 20 - 1].filter
          (fun c => decide (1 ≤ c))) ∧
      (tfLoop fetchNone (thresholdCandidates 20)).1 =
        (thresholdCandidates 20).takeWhile (fun c => (fetchNone c).properties.isEmpty) ++
          ((thresholdCandidates 20).drop
            (((thresholdCandidates 20).takeWhile
              (fun c => (fetchNone c).properties.isEmpty)).length)).take 1 ∧
      (∀ c ∈ (thresholdCandidates 20).takeWhile
          (fun c => (fetchNone c).properties.isEmpty), (fetchNone c).properties = []) ∧
      (∀ c : Int,
          ((thresholdCandidates 20).drop
            (((thresholdCandidates 20).takeWhile
              (fun c => (fetchNone c).properties.isEmpty)).length)).take 1 = [c] →
          (fetchNone c).properties ≠ [] ∧
            (fetchWithThresholdFallback fetchNone 20).properties = (fetchNone c).properties ∧
            (fetchWithThresholdFallback fetchNone 20).thresholdUsed = c) ∧
      ((∀ c ∈ thresholdCandidates 20, (fetchNone c).properties = []) →
          (fetchWithThresholdFallback fetchNone 20).properties = [] ∧
            (tfLoop fetchNone (thresholdCandidates 20)).1 = thresholdCandidates 20) :=
  fetchWithThresholdFallback_call_order fetchNone 20

/-- Claim C5: for an original threshold between 1 and 100, the returned
`thresholdUsed` is never below 1 and never above the original threshold,
and `thresholdLowered` is true exactly when `thresholdUsed` is strictly
below the original threshold. -/
theorem fetchWithThresholdFallback_bounds (fetch : Int → FetchResult) (t : Int)
    (h1 : 1 ≤ t) (h100 : t ≤ 100) :
    1 ≤ (fetchWithThresholdFallback fetch t).thresholdUsed ∧
      (fetchWithThresholdFallback fetch t).thresholdUsed ≤ t ∧
      ((fetchWithThresholdFallback fetch t).thresholdLowered = true ↔
        (fetchWithThresholdFallback fetch t).thresholdUsed < t) := by
  cases hout : (tfLoop fetch (thresholdCandidates t)).2.2 with
  | none => simp [fetchWithThresholdFallback, hout, h1]
  | some cp =>
    obtain ⟨c, props⟩ := cp
    obtain ⟨hmem, -, -⟩ := tfLoop_success fetch (thresholdCandidates t) c props hout
    obtain ⟨hc1, hct⟩ := thresholdCandidates_mem_bounds h1 hmem
    simp [fetchWithThresholdFallback, hout, hc1, hct]

/-- Witness for C5 at a concrete oracle and threshold. -/
theorem fetchWithThresholdFallback_bounds_witness :
    (1 : Int) ≤ 10 ∧ (10 : Int) ≤ 100 ∧
      (1 ≤ (fetchWithThresholdFallback fetchNone 10).thresholdUsed ∧
        (fetchWithThresholdFallback fetchNone 10).thresholdUsed ≤ 10 ∧
        ((fetchWithThresholdFallback fetchNone 10).thresholdLowered = true ↔
          (fetchWithThresholdFallback fetchNone 10).thresholdUsed < 10)) :=
  ⟨by decide, by decide, fetchWithThresholdFallback_bounds fetchNone 10 (by decide) (by decide)⟩

/-- Claim C2 (code bug): the spec says the bedroom-relaxation pass
qualifies listings at a fixed threshold of 1 percent, and the source even
sets `undervaluationThreshold: 1` in the derived params, but the threshold
argument actually passed to the provider+valuation pass is
`originalParams.undervaluationThreshold`.  With original threshold 25 and a
candidate listing at a 5 percent discount, the pass the claim describes
would retain the listing (second conjunct), yet the code's relaxation
search returns nothing at all (first conjunct). -/
theorem bedroom_relaxation_threshold_bug :
    (fetchSimilarListings fetchC2 pC2).properties = [] ∧
      (fetchC2 { pC2 with
        bedrooms := none, maxPrice := none, undervaluationThreshold := 1 } 1).properties ≠ [] := by
  constructor
  · decide
  · decide

/-- Claim C6: with original `maxPrice = 2000` and a provider that yields
qualifying listings exactly when the searched `maxPrice` reaches 3000, the
budget-expansion strategy succeeds at multiplier 1.5 (the first multiplier
reaching 3000), and every returned listing is annotated with strategy
`progressive_budget_increase` and `budgetIncreasePercent = 50`. -/
theorem budget_expansion_wins_at_multiplier_15
    (fetch : Params → Int → FetchResult) (p : Params)
    (hmp : p.maxPrice = some 2000)
    (hlow : ∀ (q : Params) (th v : Int), q.maxPrice = some v → v < 3000 →
      (fetch q th).properties = [])
    (hhigh : ∀ (q : Params) (th v : Int), q.maxPrice = some v → 3000 ≤ v →
      (fetch q th).properties ≠ []) :
    (fetchSimilarListings fetch p).fallbackStrategy = "progressive_budget_increase" ∧
      (fetchSimilarListings fetch p).budgetIncreasePercent = some 50 ∧
      (fetchSimilarListings fetch p).finalBudget = some 3000 ∧
      (fetchSimilarListings fetch p).properties ≠ [] ∧
      ∀ l ∈ (fetchSimilarListings fetch p).properties,
        l.fallbackStrategy = "progressive_budget_increase" ∧
          l.budgetIncreasePercent = some 50 := by
  have htr : truthy p.maxPrice = true := by rw [hmp]; rfl
  have e12 : roundTenths (p.maxPrice.getD 0 * 12) = 2400 := by rw [hmp]; decide
  have e15 : roundTenths (p.maxPrice.getD 0 * 15) = 3000 := by rw [hmp]; decide
  have h1 : (fetch { p with
      maxPrice := some (roundTenths (p.maxPrice.getD 0 * 12)),
      minPrice := none, undervaluationThreshold := 1 } 1).properties = [] := by
    refine hlow _ 1 (roundTenths (p.maxPrice.getD 0 * 12)) rfl ?_
    rw [e12]
    decide
  have h2 : (fetch { p with
      maxPrice := some (roundTenths (p.maxPrice.getD 0 * 15)),
      minPrice := none, undervaluationThreshold := 1 } 1).properties ≠ [] := by
    refine hhigh _ 1 (roundTenths (p.maxPrice.getD 0 * 15)) rfl ?_
    rw [e15]
  have h2len : 0 < (fetch { p with
      maxPrice := some (roundTenths (p.maxPrice.getD 0 * 15)),
      minPrice := none, undervaluationThreshold := 1 } 1).properties.length :=
    List.length_pos.2 h2
  have hloop : budgetLoop fetch p budgetMultipliersTenths =
      some (15, fetch { p with
        maxPrice := some (roundTenths (p.maxPrice.getD 0 * 15)),
        minPrice := none, undervaluationThreshold := 1 } 1) := by
    rw [budgetMultipliersTenths]
    simp [budgetLoop, h1, h2len]
  have hk : 0 < (if p.maxResults = 0 then 1 else p.maxResults) := by
    split
    · exact Nat.one_pos
    · omega
  refine ⟨?_, ?_, ?_, ?_, ?_⟩
  · simp [fetchSimilarListings, budgetStrategy, htr, hloop]
  · norm_num [fetchSimilarListings, budgetStrategy, htr, hloop]
  · simp [fetchSimilarListings, budgetStrategy, htr, hloop, e15]
  · simp only [fetchSimilarListings, budgetStrategy, htr, if_true, hloop]
    rw [← List.length_pos, List.length_map, cheapest, List.length_take,
      List.length_insertionSort]
    exact lt_min hk h2len
  · simp only [fetchSimilarListings, budgetStrategy, htr, if_true, hloop]
    intro l hl
    obtain ⟨a, ha, rfl⟩ := List.mem_map.1 hl
    exact ⟨rfl, by norm_num⟩

theorem combineResults_bound_and_nodup_witness :
    (([({ listing_id := "c", discount_percent := some 7 } : Listing)]).map
        Listing.listing_id).Nodup ∧
      (([({ listing_id := "f", discount_percent := some 9 } : Listing)]).map
        Listing.listing_id).Nodup ∧
      ((combineResults [{ listing_id := "c", discount_percent := some 7 }]
          [{ listing_id := "f", discount_percent := some 9 }] 1).length ≤ 1 ∧
        ((combineResults [{ listing_id := "c", discount_percent := some 7 }]
            [{ listing_id := "f", discount_percent := some 9 }] 1).map
              Listing.listing_id).Nodup) :=
  ⟨by decide, by decide,
    (combineResults_bound_and_nodup
      [{ listing_id := "c", discount_percent := some 7 }]
      [{ listing_id := "f", discount_percent := some 9 }] 1).1,
    (combineResults_bound_and_nodup
      [{ listing_id := "c", discount_percent := some 7 }]
      [{ listing_id := "f", discount_percent := some 9 }] 1).2 (by decide) (by decide)⟩

theorem startSmartSearch_trace (env : Env) (p : Params) :
    (startSmartSearch env p).2.2 = outTrace (smartSearchTry env p) := by
  unfold startSmartSearch
  rcases h : smartSearchTry env p with ⟨j, r, tr⟩ | ⟨m, j, tr⟩ <;>
    cases h2 : env.updateRecordFail <;> simp [outTrace]

theorem smartSearchTry_trace_mem (env : Env) (p : Params) :
    outTrace (smartSearchTry env p) ∈
      ([[0], [0, 20], [0, 20, 100], [0, 20, 40], [0, 20, 40, 70], [0, 20, 40, 70, 100],
        [0, 20, 40, 90, 100], [0, 20, 40, 70, 90, 100]] : List (List Nat)) := by
  obtain ⟨cr, cs, tf, sf, ur, urf⟩ := env
  cases cr <;> cases cs <;> cases tf <;> cases sf <;> cases ur <;>
    simp only [smartSearchTry, finishCombine] <;>
    (repeat' split) <;>
    simp [outTrace]

theorem smartSearchTry_updateFail (env : Env) (x : Except String Unit) (p : Params) :
    smartSearchTry { env with updateRecordFail := x } p = smartSearchTry env p := by
  obtain ⟨cr, cs, tf, sf, ur, urf⟩ := env
  rfl

theorem startSmartSearch_of_inr (env : Env) (p : Params) (m : String) (j : Job)
    (tr : List Nat) (h : smartSearchTry env p = Sum.inr (m, j, tr)) :
    startSmartSearch env p = ({ j with status := "failed", error := some m }, none, tr) := by
  unfold startSmartSearch
  rw [h]
  cases h2 : env.updateRecordFail <;> simp

theorem smartSearchTry_inr_trace (env : Env) (p : Params) (m : String) (j : Job)
    (tr : List Nat) (h : smartSearchTry env p = Sum.inr (m, j, tr)) :
    tr ≠ [] ∧ tr.getLast? = some j.progress := by
  obtain ⟨cr, cs, tf, sf, ur, urf⟩ := env
  cases cr <;> cases cs <;> cases tf <;> cases sf <;> cases ur <;>
    simp only [smartSearchTry, finishCombine] at h <;>
    (repeat' split at h) <;>
    first
      | exact Sum.noConfusion h
      | (injection h with h1
         injection h1 with hm h2
         injection h2 with hj ht
         subst hm
         subst hj
         subst ht
         exact ⟨by simp, by simp [jobInit]⟩)

/-- Claim C3: if an exception escapes any pipeline step, the job ends with
status `failed` and the error message attached; no job result is stored;
the progress field is exactly the value at the moment of the throw — the
last successfully assigned progress value (the failure handler neither
resets it nor advances it to 100, and appends nothing to the assignment
trace); and the outcome of the catch block's own audit-record update is
swallowed: it changes nothing about the run's result. -/
theorem smart_search_failure_semantics (env : Env) (p : Params) (m : String)
    (j : Job) (tr : List Nat) (h : smartSearchTry env p = Sum.inr (m, j, tr)) :
    (startSmartSearch env p).1.status = "failed" ∧
      (startSmartSearch env p).1.error = some m ∧
      (startSmartSearch env p).2.1 = none ∧
      (startSmartSearch env p).1.progress = j.progress ∧
      (startSmartSearch env p).2.2 = tr ∧
      tr ≠ [] ∧ tr.getLast? = some j.progress ∧
      ∀ x : Except String Unit,
        startSmartSearch { env with updateRecordFail := x } p = startSmartSearch env p := by
  have hrun := startSmartSearch_of_inr env p m j tr h
  obtain ⟨hne, hlast⟩ := smartSearchTry_inr_trace env p m j tr h
  refine ⟨?_, ?_, ?_, ?_, ?_, hne, hlast, ?_⟩
  · rw [hrun]
  · rw [hrun]
  · rw [hrun]
  · rw [hrun]
  · rw [hrun]
  · intro x
    have hs : smartSearchTry { env with updateRecordFail := x } p = Sum.inr (m, j, tr) := by
      rw [smartSearchTry_updateFail env x p, h]
    rw [startSmartSearch_of_inr _ p m j tr hs, hrun]

/-- Witness for C3 at the concrete environment `envC3`. -/
theorem smart_search_failure_semantics_witness :
    smartSearchTry envC3 pC3 = Sum.inr ("boom", jC3, [0, 20]) ∧
      ((startSmartSearch envC3 pC3).1.status = "failed" ∧
        (startSmartSearch envC3 pC3).1.error = some "boom" ∧
        (startSmartSearch envC3 pC3).2.1 = none ∧
        (startSmartSearch envC3 pC3).1.progress = jC3.progress ∧
        (startSmartSearch envC3 pC3).2.2 = [0, 20] ∧
        [0, 20] ≠ ([] : List Nat) ∧ ([0, 20] : List Nat).getLast? = some jC3.progress ∧
        ∀ x : Except String Unit,
          startSmartSearch { envC3 with updateRecordFail := x } pC3 =
            startSmartSearch envC3 pC3) :=
  ⟨by rfl, smart_search_failure_semantics envC3 pC3 "boom" jC3 [0, 20] (by rfl)⟩

/-- Claim C7: when the cache, the threshold-fallback search and the whole
relaxation search all produce zero listings (and no collaborator throws;
the cache shortfall requires a positive desired count, without which the
run would finish as `cache_only`), the job completes — it does not fail —
at progress 100, and a job result is stored whose source is `no_results`
and whose properties list is empty. -/
theorem no_results_completion (env : Env) (p : Params) (tf : TFResult)
    (sim : SimilarResult)
    (hcr : env.createRecord = .ok ())
    (hcs : env.cacheSearch = .ok [])
    (htf : env.thresholdFetch = .ok tf) (htfp : tf.properties = [])
    (hsf : env.similarFetch = .ok sim) (hsp : sim.properties = [])
    (hur : env.updateRecord = .ok ())
    (hmr : 0 < p.maxResults) :
    (startSmartSearch env p).1.status = "completed" ∧
      (startSmartSearch env p).1.progress = 100 ∧
      (startSmartSearch env p).2.1 = some
        { source := "no_results", properties := [], totalFound := 0, cacheHits := 0,
          newlyScraped := 0, thresholdUsed := p.undervaluationThreshold,
          thresholdLowered := false, usedSimilarFallback := false } := by
  have hne : p.maxResults ≠ 0 := by omega
  refine ⟨?_, ?_, ?_⟩ <;>
    simp [startSmartSearch, smartSearchTry, hcr, hcs, htf, hsf, hur, htfp, hsp, hne]

/-- Witness for C7 at the concrete environment `envC7`. -/
theorem no_results_completion_witness :
    envC7.createRecord = .ok () ∧ envC7.cacheSearch = .ok [] ∧
      envC7.thresholdFetch = .ok tfC7 ∧ tfC7.properties = [] ∧
      envC7.similarFetch = .ok {} ∧ ({} : SimilarResult).properties = [] ∧
      envC7.updateRecord = .ok () ∧ 0 < pC3.maxResults ∧
      ((startSmartSearch envC7 pC3).1.status = "completed" ∧
        (startSmartSearch envC7 pC3).1.progress = 100 ∧
        (startSmartSearch envC7 pC3).2.1 = some
          { source := "no_results", properties := [], totalFound := 0, cacheHits := 0,
            newlyScraped := 0, thresholdUsed := pC3.undervaluationThreshold,
            thresholdLowered := false, usedSimilarFallback := false }) :=
  ⟨rfl, rfl, rfl, rfl, rfl, rfl, rfl, by decide,
    no_results_completion envC7 pC3 tfC7 {} rfl rfl rfl rfl rfl rfl rfl (by decide)⟩

/-- Claim C9: across every update the engine performs during a job's
lifetime — including a failing run — the progress-assignment trace stays
within 0 to 100 and is monotonically non-decreasing: each assignment sets
progress to a value at least its previous value. -/
theorem job_progress_monotone (env : Env) (p : Params) :
    List.Chain' (· ≤ ·) (startSmartSearch env p).2.2 ∧
      ∀ x ∈ (startSmartSearch env p).2.2, x ≤ 100 := by
  rw [startSmartSearch_trace env p]
  have h := smartSearchTry_trace_mem env p
  simp only [List.mem_cons, List.not_mem_nil, or_false] at h
  rcases h with h | h | h | h | h | h | h | h <;> rw [h] <;>
    exact ⟨by simp [List.chain'_cons, List.chain'_singleton], by decide⟩

/-- Witness for C6 at the concrete oracle `fetchC6`. -/
theorem budget_expansion_wins_at_multiplier_15_witness :
    pC6.maxPrice = some 2000 ∧
      (∀ (q : Params) (th v : Int), q.maxPrice = some v → v < 3000 →
        (fetchC6 q th).properties = []) ∧
      (∀ (q : Params) (th v : Int), q.maxPrice = some v → 3000 ≤ v →
        (fetchC6 q th).properties ≠ []) ∧
      ((fetchSimilarListings fetchC6 pC6).fallbackStrategy = "progressive_budget_increase" ∧
        (fetchSimilarListings fetchC6 pC6).budgetIncreasePercent = some 50 ∧
        (fetchSimilarListings fetchC6 pC6).finalBudget = some 3000 ∧
        (fetchSimilarListings fetchC6 pC6).properties ≠ [] ∧
        ∀ l ∈ (fetchSimilarListings fetchC6 pC6).properties,
          l.fallbackStrategy = "progressive_budget_increase" ∧
            l.budgetIncreasePercent = some 50) := by
  have hlow : ∀ (q : Params) (th v : Int), q.maxPrice = some v → v < 3000 →
      (fetchC6 q th).properties = [] := by
    intro q th v hv hlt
    simp only [fetchC6, hv, Option.getD_some]
    rw [if_neg (by omega)]
  have hhigh : ∀ (q : Params) (th v : Int), q.maxPrice = some v → 3000 ≤ v →
      (fetchC6 q th).properties ≠ [] := by
    intro q th v hv hge
    simp only [fetchC6, hv, Option.getD_some]
    rw [if_pos hge]
    simp
  exact ⟨rfl, hlow, hhigh,
    budget_expansion_wins_at_multiplier_15 fetchC6 pC6 rfl hlow hhigh⟩

end ApiRepo
